import Mathlib

/-!
Verification of the feature-vector construction and similarity-ranking logic
of the ai-soccer-backend server (src/server.js), shallowly embedded in Lean.

JS numbers are modelled as rationals where the code performs field arithmetic
and comparisons, and as reals where a square root occurs (cosine similarity).
Fallible or partial behaviour (reading past the end of an array, a throwing
JSON.parse) is modelled with Option.
-/

namespace SoccerBackend

/-- Player attributes as destructured by `extractFeatures` in src/server.js
line 49: height_cm, dominant_foot, position, age, and the four skill scores
pace, dribbling, passing, shooting, each of which defaults to 0.6 when absent
from the request payload. -/
structure PlayerAttributes where
  height_cm : ℚ
  dominant_foot : String
  position : String
  age : ℚ
  pace : ℚ := 0.6
  dribbling : ℚ := 0.6
  passing : ℚ := 0.6
  shooting : ℚ := 0.6

/-- Embedding of `extractFeatures` (src/server.js lines 49-66): three one-hot
foot-dominance flags, a one-hot position encoding over the fixed list
winger/striker/midfielder/defender/goalkeeper, height mapped by
(height_cm - 150) / 50 and age by (age - 12) / 20, both clamped into [0,1] by
`Math.min(Math.max(x, 0), 1)`, then the literal array
`[h, a, pace, dribbling, passing, shooting, footR, footL, footTwo, ...posVec]`. -/
def extractFeatures (attrs : PlayerAttributes) : List ℚ :=
  let footR : ℚ := if attrs.dominant_foot = "right" then 1 else 0
  let footL : ℚ := if attrs.dominant_foot = "left" then 1 else 0
  let footTwo : ℚ := if attrs.dominant_foot = "two-footed" then 1 else 0
  let posMap : List String := ["winger", "striker", "midfielder", "defender", "goalkeeper"]
  let posVec : List ℚ := posMap.map (fun p => if p = attrs.position then 1 else 0)
  let h : ℚ := min (max ((attrs.height_cm - 150) / 50) 0) 1
  let a : ℚ := min (max ((attrs.age - 12) / 20) 0) 1
  [h, a, attrs.pace, attrs.dribbling, attrs.passing, attrs.shooting, footR, footL, footTwo]
    ++ posVec

/-- Biomechanical metrics as produced by `analyzeVideoMock` and consumed by
`suggestionsFromMetrics` and the vector composer (src/server.js lines 70-88,
107-112). -/
structure Metrics where
  kneeFlex : ℚ
  bodyLean : ℚ
  sprintTempo : ℚ
  touches : ℚ

/-- Embedding of `metricVec` (src/server.js lines 107-112): each metric divided
by its fixed scale constant and clamped to at most 1 by `Math.min(x, 1)`. -/
def metricVec (m : Metrics) : List ℚ :=
  [min (m.kneeFlex / 120) 1, min (m.bodyLean / 45) 1,
   min (m.sprintTempo / 220) 1, min (m.touches / 60) 1]

/-- Embedding of `playerVec` (src/server.js line 113): `feats.concat(metricVec)`. -/
def playerVec (attrs : PlayerAttributes) (m : Metrics) : List ℚ :=
  extractFeatures attrs ++ metricVec m

/-- Modelled from the spec: the roster dataset `pros.json` read at
src/server.js line 33 is not among the repository files under src/; the spec
states that each ProReference roster entry carries "a precomputed 21-length
feature vector". -/
def proFeatureLen : Nat := 21

/-- C1: for every input, `extractFeatures` returns an array of
2 + 4 + 3 + 5 = 14 entries, not 17 as the spec and the comment at
src/server.js line 59 state. -/
theorem extractFeatures_length_is_14 (attrs : PlayerAttributes) :
    (extractFeatures attrs).length = 14 ∧ (extractFeatures attrs).length ≠ 17 := by
  constructor <;> simp [extractFeatures]

/-- C2: for every attributes record and every metrics value, the composed
player vector has 14 + 4 = 18 entries, not 21, and therefore never matches the
21-length ProReference roster vectors the spec describes. -/
theorem playerVec_length_is_18 (attrs : PlayerAttributes) (m : Metrics) :
    (playerVec attrs m).length = 18 ∧ (playerVec attrs m).length ≠ proFeatureLen := by
  constructor <;> simp [playerVec, extractFeatures, metricVec, proFeatureLen]

/-- C7: the vector composer divides kneeFlex by 120, bodyLean by 45,
sprintTempo by 220 and touches by 60, clamps each quotient to at most 1, and
appends the four values after the feature vector in exactly that order. -/
theorem playerVec_compose_spec (attrs : PlayerAttributes) (m : Metrics) :
    playerVec attrs m =
      extractFeatures attrs ++
        [min (m.kneeFlex / 120) 1, min (m.bodyLean / 45) 1,
         min (m.sprintTempo / 220) 1, min (m.touches / 60) 1] ∧
    min (m.kneeFlex / 120) 1 ≤ 1 ∧ min (m.bodyLean / 45) 1 ≤ 1 ∧
    min (m.sprintTempo / 220) 1 ≤ 1 ∧ min (m.touches / 60) 1 ≤ 1 :=
  ⟨rfl, min_le_right _ _, min_le_right _ _, min_le_right _ _, min_le_right _ _⟩

/-- Embedding of the status-code control flow of the POST /analyze handler
(src/server.js lines 94-149).  `attrRaw` is `req.body.attributes` (`none` when
the field is absent; the JS falsiness test `!attrRaw` also catches the empty
string).  `parseResult` stands for the outcome of `JSON.parse attrRaw`
(`none` when it throws).  `restOk` abstracts the remaining effectful steps of
the try block (session write and response); the surrounding catch turns any
throw into a 500 response. -/
def analyzeStatus (attrRaw : Option String) (parseResult : Option PlayerAttributes)
    (restOk : Bool) : Nat :=
  match attrRaw with
  | none => 400
  | some s =>
    if s = "" then 400
    else
      match parseResult with
      | none => 500
      | some _ => if restOk then 200 else 500

/-- C3 counterexample: an attributes field that is present but is not valid
JSON (the one-character payload "\x7b") makes `JSON.parse` throw inside the
try block, so the handler answers 500, not 400 as the claim states. -/
theorem analyzeStatus_invalid_json_gives_500 :
    analyzeStatus (some "\x7b") none true = 500 ∧
      analyzeStatus (some "\x7b") none true ≠ 400 := by
  constructor <;> decide

/-- C3 as amended: the handler answers 400 exactly when the attributes field
is absent or the empty string, and 500 exactly when the field is present and
non-empty but JSON.parse throws or a later step of the try block throws. -/
theorem analyzeStatus_spec (attrRaw : Option String) (parseResult : Option PlayerAttributes)
    (restOk : Bool) :
    (analyzeStatus attrRaw parseResult restOk = 400 ↔
      attrRaw = none ∨ attrRaw = some "") ∧
    (analyzeStatus attrRaw parseResult restOk = 500 ↔
      ∃ s, attrRaw = some s ∧ s ≠ "" ∧ (parseResult = none ∨ restOk = false)) := by
  cases attrRaw with
  | none => simp [analyzeStatus]
  | some s =>
    by_cases hs : s = ""
    · subst hs
      simp [analyzeStatus]
    · cases parseResult with
      | none => simp [analyzeStatus, hs]
      | some a =>
        cases restOk <;> simp [analyzeStatus, hs]

/-- The suggestion string pushed when kneeFlex < 50 (src/server.js line 82). -/
def sugKnee : String :=
  "Increase knee flexion during acceleration to improve power (add wall-sit holds and mini-hurdles)."

/-- The suggestion string pushed when bodyLean < 10 (src/server.js line 83). -/
def sugBody : String :=
  "Add forward body-lean on first 2–3 steps; try 'lean & go' resisted sprints."

/-- The suggestion string pushed when sprintTempo < 160 (src/server.js line 84). -/
def sugTempo : String :=
  "Improve step cadence with 10m fast-feet ladders and 5x10m accelerations."

/-- The suggestion string pushed when touches < 15 (src/server.js line 85). -/
def sugTouch : String :=
  "Raise ball-contact frequency; 3x2min tight touches and V-pulls."

/-- The fallback suggestion pushed when no rule fired (src/server.js line 86). -/
def sugFallback : String :=
  "Great base mechanics—progress to position-specific drills and resisted sprints."

/-- Embedding of `suggestionsFromMetrics` (src/server.js lines 80-88): the four
threshold rules push their strings in order, and the fallback is pushed exactly
when the list is still empty afterwards. -/
def suggestionsFromMetrics (m : Metrics) : List String :=
  let out : List String :=
    (if m.kneeFlex < 50 then [sugKnee] else []) ++
    (if m.bodyLean < 10 then [sugBody] else []) ++
    (if m.sprintTempo < 160 then [sugTempo] else []) ++
    (if m.touches < 15 then [sugTouch] else [])
  if out.length = 0 then [sugFallback] else out

lemma sugFallback_ne_sugKnee : sugFallback ≠ sugKnee := by decide
lemma sugFallback_ne_sugBody : sugFallback ≠ sugBody := by decide
lemma sugFallback_ne_sugTempo : sugFallback ≠ sugTempo := by decide
lemma sugFallback_ne_sugTouch : sugFallback ≠ sugTouch := by decide

/-- C6: the four threshold rules are evaluated independently in the fixed
order kneeFlex < 50, bodyLean < 10, sprintTempo < 160, touches < 15, each
contributing its fixed string; the result is never empty, and it contains the
fallback string exactly when all four thresholds are unmet. -/
theorem suggestionsFromMetrics_spec (m : Metrics) :
    suggestionsFromMetrics m =
      (if (¬ m.kneeFlex < 50 ∧ ¬ m.bodyLean < 10 ∧ ¬ m.sprintTempo < 160 ∧ ¬ m.touches < 15)
        then [sugFallback]
        else
          (if m.kneeFlex < 50 then [sugKnee] else []) ++
          (if m.bodyLean < 10 then [sugBody] else []) ++
          (if m.sprintTempo < 160 then [sugTempo] else []) ++
          (if m.touches < 15 then [sugTouch] else [])) ∧
    suggestionsFromMetrics m ≠ [] ∧
    (sugFallback ∈ suggestionsFromMetrics m ↔
      ¬ m.kneeFlex < 50 ∧ ¬ m.bodyLean < 10 ∧ ¬ m.sprintTempo < 160 ∧ ¬ m.touches < 15) := by
  by_cases h1 : m.kneeFlex < 50 <;> by_cases h2 : m.bodyLean < 10 <;>
    by_cases h3 : m.sprintTempo < 160 <;> by_cases h4 : m.touches < 15 <;>
    simp [suggestionsFromMetrics, h1, h2, h3, h4, sugFallback_ne_sugKnee,
      sugFallback_ne_sugBody, sugFallback_ne_sugTempo, sugFallback_ne_sugTouch]

lemma clamp01_eq_zero {x : ℚ} (hx : x ≤ 0) : min (max x 0) 1 = 0 := by
  rw [max_eq_right hx]
  exact min_eq_left zero_le_one

lemma clamp01_eq_self {x : ℚ} (h0 : 0 ≤ x) (h1 : x ≤ 1) : min (max x 0) 1 = x := by
  rw [max_eq_left h0]
  exact min_eq_left h1

lemma clamp01_eq_one {x : ℚ} (hx : 1 ≤ x) : min (max x 0) 1 = 1 :=
  min_eq_right (le_trans hx (le_max_left x 0))

lemma clamp01_nonneg (x : ℚ) : 0 ≤ min (max x 0) 1 :=
  le_min (le_max_right x 0) zero_le_one

lemma clamp01_le_one (x : ℚ) : min (max x 0) 1 ≤ 1 :=
  min_le_right _ _

/-- C8: the first two entries of the encoded feature vector are the height and
age normalisations (height_cm - 150) / 50 and (age - 12) / 20 clamped into
[0,1]; they always lie in [0,1], equal the linear map exactly on [150,200]
and [12,32] respectively, and saturate to 0 below and to 1 above those ranges. -/
theorem extractFeatures_head_clamps (attrs : PlayerAttributes) :
    (extractFeatures attrs)[0]? = some (min (max ((attrs.height_cm - 150) / 50) 0) 1) ∧
    (extractFeatures attrs)[1]? = some (min (max ((attrs.age - 12) / 20) 0) 1) ∧
    (0 ≤ min (max ((attrs.height_cm - 150) / 50) 0) 1 ∧
      min (max ((attrs.height_cm - 150) / 50) 0) 1 ≤ 1) ∧
    (0 ≤ min (max ((attrs.age - 12) / 20) 0) 1 ∧
      min (max ((attrs.age - 12) / 20) 0) 1 ≤ 1) ∧
    (if attrs.height_cm < 150 then min (max ((attrs.height_cm - 150) / 50) 0) 1 = 0
      else if attrs.height_cm ≤ 200 then
        min (max ((attrs.height_cm - 150) / 50) 0) 1 = (attrs.height_cm - 150) / 50
      else min (max ((attrs.height_cm - 150) / 50) 0) 1 = 1) ∧
    (if attrs.age < 12 then min (max ((attrs.age - 12) / 20) 0) 1 = 0
      else if attrs.age ≤ 32 then
        min (max ((attrs.age - 12) / 20) 0) 1 = (attrs.age - 12) / 20
      else min (max ((attrs.age - 12) / 20) 0) 1 = 1) := by
  refine ⟨by simp [extractFeatures], by simp [extractFeatures],
    ⟨clamp01_nonneg _, clamp01_le_one _⟩, ⟨clamp01_nonneg _, clamp01_le_one _⟩, ?_, ?_⟩
  · split_ifs with hlo hhi
    · exact clamp01_eq_zero (by rw [div_nonpos_iff]; right; constructor <;> linarith)
    · exact clamp01_eq_self (le_div_iff₀ (by norm_num) |>.mpr (by linarith))
        ((div_le_one (by norm_num)).mpr (by linarith))
    · exact clamp01_eq_one ((one_le_div (by norm_num)).mpr (by linarith))
  · split_ifs with hlo hhi
    · exact clamp01_eq_zero (by rw [div_nonpos_iff]; right; constructor <;> linarith)
    · exact clamp01_eq_self (le_div_iff₀ (by norm_num) |>.mpr (by linarith))
        ((div_le_one (by norm_num)).mpr (by linarith))
    · exact clamp01_eq_one ((one_le_div (by norm_num)).mpr (by linarith))

/-- C9: entries 6, 7 and 8 of the encoded feature vector are the
foot-dominance flags for the literal strings "right", "left" and "two-footed";
when dominant_foot is one of those three strings exactly one flag is 1 and the
other two are 0, and for any other value all three flags are 0. -/
theorem extractFeatures_foot_onehot (attrs : PlayerAttributes) :
    ((extractFeatures attrs).drop 6).take 3 =
      [if attrs.dominant_foot = "right" then (1 : ℚ) else 0,
       if attrs.dominant_foot = "left" then (1 : ℚ) else 0,
       if attrs.dominant_foot = "two-footed" then (1 : ℚ) else 0] ∧
    (if attrs.dominant_foot = "right" ∨ attrs.dominant_foot = "left" ∨
        attrs.dominant_foot = "two-footed"
      then (((extractFeatures attrs).drop 6).take 3).count 1 = 1 ∧
        (((extractFeatures attrs).drop 6).take 3).count 0 = 2
      else ((extractFeatures attrs).drop 6).take 3 = [0, 0, 0]) := by
  refine ⟨by simp [extractFeatures], ?_⟩
  split_ifs with hmem
  · rcases hmem with hf | hf | hf <;>
      simp [extractFeatures, hf, List.count_cons, List.count_nil]
  · push_neg at hmem
    simp [extractFeatures, hmem.1, hmem.2.1, hmem.2.2]

/-- JS `Math.round`: round half towards positive infinity, i.e. the floor of
x + 1/2. -/
def jsRound (q : ℚ) : ℤ := ⌊q + 1 / 2⌋

/-- Embedding of `analyzeVideoMock` (src/server.js lines 70-77): the four
uniform draws `Math.random()` are passed in explicitly as r1..r4, each in
[0,1), and each metric is `Math.round(lo + ri * span)`. -/
def analyzeVideoMock (r1 r2 r3 r4 : ℚ) : Metrics where
  kneeFlex := ((jsRound (30 + r1 * 60) : ℤ) : ℚ)
  bodyLean := ((jsRound (5 + r2 * 25) : ℤ) : ℚ)
  sprintTempo := ((jsRound (140 + r3 * 60) : ℤ) : ℚ)
  touches := ((jsRound (10 + r4 * 25) : ℤ) : ℚ)

lemma jsRound_bounds (lo hi : ℤ) {q : ℚ} (hlo : (lo : ℚ) ≤ q) (hhi : q ≤ (hi : ℚ)) :
    lo ≤ jsRound q ∧ jsRound q ≤ hi := by
  constructor
  · exact Int.le_floor.mpr (by linarith)
  · exact Int.lt_add_one_iff.mp (Int.floor_lt.mpr (by push_cast; linarith))

lemma affine_draw_bounds (lo span : ℚ) {r : ℚ} (h0 : 0 ≤ r) (h1 : r < 1) (hs : 0 ≤ span) :
    lo ≤ lo + r * span ∧ lo + r * span ≤ lo + span := by
  have hge : 0 ≤ r * span := mul_nonneg h0 hs
  have hle : r * span ≤ 1 * span := mul_le_mul_of_nonneg_right h1.le hs
  constructor <;> linarith

/-- C10: for draws r1..r4 in [0,1), `analyzeVideoMock` returns exactly the
record of the four rounded metrics `Math.round(30 + r1*60)`,
`Math.round(5 + r2*25)`, `Math.round(140 + r3*60)` and
`Math.round(10 + r4*25)`, integer values lying in [30,90], [5,30], [140,200]
and [10,35] respectively. -/
theorem analyzeVideoMock_ranges (r1 r2 r3 r4 : ℚ)
    (h10 : 0 ≤ r1) (h11 : r1 < 1) (h20 : 0 ≤ r2) (h21 : r2 < 1)
    (h30 : 0 ≤ r3) (h31 : r3 < 1) (h40 : 0 ≤ r4) (h41 : r4 < 1) :
    analyzeVideoMock r1 r2 r3 r4 =
      { kneeFlex := ((jsRound (30 + r1 * 60) : ℤ) : ℚ),
        bodyLean := ((jsRound (5 + r2 * 25) : ℤ) : ℚ),
        sprintTempo := ((jsRound (140 + r3 * 60) : ℤ) : ℚ),
        touches := ((jsRound (10 + r4 * 25) : ℤ) : ℚ) } ∧
    (30 ≤ ((jsRound (30 + r1 * 60) : ℤ) : ℚ) ∧ ((jsRound (30 + r1 * 60) : ℤ) : ℚ) ≤ 90) ∧
    (5 ≤ ((jsRound (5 + r2 * 25) : ℤ) : ℚ) ∧ ((jsRound (5 + r2 * 25) : ℤ) : ℚ) ≤ 30) ∧
    (140 ≤ ((jsRound (140 + r3 * 60) : ℤ) : ℚ) ∧ ((jsRound (140 + r3 * 60) : ℤ) : ℚ) ≤ 200) ∧
    (10 ≤ ((jsRound (10 + r4 * 25) : ℤ) : ℚ) ∧ ((jsRound (10 + r4 * 25) : ℤ) : ℚ) ≤ 35) := by
  have b1 := affine_draw_bounds 30 60 h10 h11 (by norm_num)
  have b2 := affine_draw_bounds 5 25 h20 h21 (by norm_num)
  have b3 := affine_draw_bounds 140 60 h30 h31 (by norm_num)
  have b4 := affine_draw_bounds 10 25 h40 h41 (by norm_num)
  have j1 := jsRound_bounds 30 90 (by exact_mod_cast b1.1) (by push_cast; linarith [b1.2])
  have j2 := jsRound_bounds 5 30 (by exact_mod_cast b2.1) (by push_cast; linarith [b2.2])
  have j3 := jsRound_bounds 140 200 (by exact_mod_cast b3.1) (by push_cast; linarith [b3.2])
  have j4 := jsRound_bounds 10 35 (by exact_mod_cast b4.1) (by push_cast; linarith [b4.2])
  refine ⟨rfl, ⟨?_, ?_⟩, ⟨?_, ?_⟩, ⟨?_, ?_⟩, ⟨?_, ?_⟩⟩
  · exact_mod_cast j1.1
  · exact_mod_cast j1.2
  · exact_mod_cast j2.1
  · exact_mod_cast j2.2
  · exact_mod_cast j3.1
  · exact_mod_cast j3.2
  · exact_mod_cast j4.1
  · exact_mod_cast j4.2

/-- C10 witness: the theorem applied at the concrete draws (0, 1/2, 1/2, 1/2). -/
theorem analyzeVideoMock_ranges_witness :
    ((0 : ℚ) ≤ 0 ∧ (0 : ℚ) < 1 ∧ (0 : ℚ) ≤ 1 / 2 ∧ (1 / 2 : ℚ) < 1) ∧
    (analyzeVideoMock 0 (1 / 2) (1 / 2) (1 / 2) =
      { kneeFlex := ((jsRound (30 + 0 * 60) : ℤ) : ℚ),
        bodyLean := ((jsRound (5 + 1 / 2 * 25) : ℤ) : ℚ),
        sprintTempo := ((jsRound (140 + 1 / 2 * 60) : ℤ) : ℚ),
        touches := ((jsRound (10 + 1 / 2 * 25) : ℤ) : ℚ) } ∧
    (30 ≤ ((jsRound (30 + 0 * 60) : ℤ) : ℚ) ∧ ((jsRound (30 + 0 * 60) : ℤ) : ℚ) ≤ 90) ∧
    (5 ≤ ((jsRound (5 + 1 / 2 * 25) : ℤ) : ℚ) ∧ ((jsRound (5 + 1 / 2 * 25) : ℤ) : ℚ) ≤ 30) ∧
    (140 ≤ ((jsRound (140 + 1 / 2 * 60) : ℤ) : ℚ) ∧
      ((jsRound (140 + 1 / 2 * 60) : ℤ) : ℚ) ≤ 200) ∧
    (10 ≤ ((jsRound (10 + 1 / 2 * 25) : ℤ) : ℚ) ∧ ((jsRound (10 + 1 / 2 * 25) : ℤ) : ℚ) ≤ 35)) :=
  ⟨⟨le_refl 0, by norm_num, by norm_num, by norm_num⟩,
    analyzeVideoMock_ranges 0 (1 / 2) (1 / 2) (1 / 2) (le_refl 0) (by norm_num)
      (by norm_num) (by norm_num) (by norm_num) (by norm_num) (by norm_num) (by norm_num)⟩

/-- The accumulation loop of `cosineSim` (src/server.js lines 36-45): the loop
runs over the indices of `a` and reads `b[i]` at each step, accumulating the
dot product, the sum of squares of `a` and the sum of squares of the read
prefix of `b`.  The result is `none` when the loop would read past the end of
`b` (JS yields NaN there, which the real-valued model does not represent);
structural recursion re-associates the sums, which is immaterial over ℝ. -/
def simSums : List ℝ → List ℝ → Option (ℝ × ℝ × ℝ)
  | [], _ => some (0, 0, 0)
  | _ :: _, [] => none
  | x :: xs, y :: ys =>
    (simSums xs ys).map (fun s => (x * y + s.1, x * x + s.2.1, y * y + s.2.2))

/-- Embedding of `cosineSim` (src/server.js lines 36-45): the accumulated dot
product divided by the product of the two square roots plus the literal 1e-9. -/
noncomputable def cosineSim (a b : List ℝ) : Option ℝ :=
  (simSums a b).map (fun s => s.1 / (Real.sqrt s.2.1 * Real.sqrt s.2.2 + 1 / 1000000000))

/-- Sum of pairwise products over the common prefix of two vectors. -/
def dotList (a b : List ℝ) : ℝ := (List.zipWith (fun x y => x * y) a b).sum

/-- Euclidean norm of a vector: the square root of its sum of squares. -/
noncomputable def euclidNorm (v : List ℝ) : ℝ := Real.sqrt (dotList v v)

lemma zipWith_take_length (f : ℝ → ℝ → ℝ) :
    ∀ (a b : List ℝ), List.zipWith f a (List.take a.length b) = List.zipWith f a b := by
  intro a
  induction a with
  | nil => intro b; simp
  | cons x xs ih =>
    intro b
    cases b with
    | nil => simp
    | cons y ys => simp [List.take_succ_cons, ih]

lemma simSums_spec (a : List ℝ) : ∀ (b : List ℝ), a.length ≤ b.length →
    simSums a b = some (dotList a b, dotList a a,
      dotList (List.take a.length b) (List.take a.length b)) := by
  induction a with
  | nil => intro b _; simp [simSums, dotList]
  | cons x xs ih =>
    intro b hb
    cases b with
    | nil => simp at hb
    | cons y ys =>
      have hb' : xs.length ≤ ys.length := by simpa using hb
      simp [simSums, ih ys hb', dotList, List.take_succ_cons]

/-- C4: when `b` is at least as long as `a`, `cosineSim a b` is defined (no
read past index |a| - 1, no error), equals the dot product of `a` with the
first-|a| prefix of `b` divided by the product of the Euclidean norms of `a`
and of that prefix plus 1e-9, and coincides with `cosineSim` of `a` and the
prefix alone: the trailing entries of `b` are ignored. -/
theorem cosineSim_prefix_spec (a b : List ℝ) (h : a.length ≤ b.length) :
    cosineSim a b =
      some (dotList a (List.take a.length b) /
        (euclidNorm a * euclidNorm (List.take a.length b) + 1 / 1000000000)) ∧
    cosineSim a b = cosineSim a (List.take a.length b) := by
  have hlen : a.length ≤ (List.take a.length b).length := by
    simp [List.length_take, h]
  have hdot : dotList a b = dotList a (List.take a.length b) := by
    simp [dotList, zipWith_take_length]
  have e1 := simSums_spec a b h
  have e2 := simSums_spec a (List.take a.length b) hlen
  have htake : List.take a.length (List.take a.length b) = List.take a.length b := by
    simp [List.take_take]
  constructor
  · simp [cosineSim, e1, euclidNorm, hdot]
  · simp [cosineSim, e1, e2, htake, hdot]

/-- C4 witness: the theorem applied at a = [1] and b = [1, 0]. -/
theorem cosineSim_prefix_spec_witness :
    ([(1 : ℝ)].length ≤ [(1 : ℝ), 0].length) ∧
    (cosineSim [(1 : ℝ)] [(1 : ℝ), 0] =
      some (dotList [(1 : ℝ)] (List.take [(1 : ℝ)].length [(1 : ℝ), 0]) /
        (euclidNorm [(1 : ℝ)] * euclidNorm (List.take [(1 : ℝ)].length [(1 : ℝ), 0]) +
          1 / 1000000000)) ∧
    cosineSim [(1 : ℝ)] [(1 : ℝ), 0] =
      cosineSim [(1 : ℝ)] (List.take [(1 : ℝ)].length [(1 : ℝ), 0])) :=
  ⟨by simp, cosineSim_prefix_spec [(1 : ℝ)] [(1 : ℝ), 0] (by simp)⟩

/-- A ProReference roster entry: name, position, club and a precomputed
feature vector (src/server.js line 33 and the mapping at lines 116-118). -/
structure Pro where
  name : String
  position : String
  club : String
  features : List ℝ

/-- One entry of the ranked list built at src/server.js lines 116-119: the
identity fields of a roster entry together with its similarity score. -/
structure RankedMatch where
  name : String
  position : String
  club : String
  similarity : ℝ

/-- The record built for one roster entry in the `pros.map` step
(src/server.js lines 116-118).  `(cosineSim pv p.features).getD 0` stands for
the JS similarity value; it is `none` (NaN in JS) only when the roster vector
is shorter than the player vector, a case the spec declares undefined. -/
noncomputable def scoreMatch (pv : List ℝ) (p : Pro) : RankedMatch :=
  { name := p.name, position := p.position, club := p.club,
    similarity := (cosineSim pv p.features).getD 0 }

/-- Stable descending insertion: `x` is placed before the first element whose
key is at most `key x`, so an element never moves ahead of an earlier one with
an equal key.  This models the ES2019 stable `Array.prototype.sort` with the
comparator `(a, b) => b.similarity - a.similarity`. -/
def insertDescBy {α β : Type} [LinearOrder β] (key : α → β) (x : α) : List α → List α
  | [] => [x]
  | y :: ys => if key y ≤ key x then x :: y :: ys else y :: insertDescBy key x ys

/-- Stable descending sort by a key, as insertion sort. -/
def sortDescBy {α β : Type} [LinearOrder β] (key : α → β) : List α → List α
  | [] => []
  | x :: xs => insertDescBy key x (sortDescBy key xs)

/-- Embedding of `ranked` (src/server.js lines 116-119): score every roster
entry, then sort by descending similarity. -/
noncomputable def ranked (pv : List ℝ) (pros : List Pro) : List RankedMatch :=
  sortDescBy (fun m => m.similarity) (List.map (scoreMatch pv) pros)

/-- Embedding of `top` (src/server.js line 121): `ranked.slice(0, 5)`. -/
noncomputable def topFive (pv : List ℝ) (pros : List Pro) : List RankedMatch :=
  (ranked pv pros).take 5

section SortLemmas

variable {α β : Type} [LinearOrder β] (key : α → β)

lemma insertDescBy_perm (x : α) (l : List α) :
    List.Perm (insertDescBy key x l) (x :: l) := by
  induction l with
  | nil => exact List.Perm.refl _
  | cons y ys ih =>
    rw [insertDescBy]
    split
    · exact List.Perm.refl _
    · exact List.Perm.trans (ih.cons y) (List.Perm.swap x y ys)

lemma sortDescBy_perm (l : List α) : List.Perm (sortDescBy key l) l := by
  induction l with
  | nil => exact List.Perm.refl _
  | cons x xs ih =>
    exact List.Perm.trans (insertDescBy_perm key x (sortDescBy key xs)) (ih.cons x)

lemma insertDescBy_pairwise {x : α} {l : List α}
    (hl : List.Pairwise (fun a b => key b ≤ key a) l) :
    List.Pairwise (fun a b => key b ≤ key a) (insertDescBy key x l) := by
  induction l with
  | nil => simp [insertDescBy]
  | cons y ys ih =>
    rw [List.pairwise_cons] at hl
    rw [insertDescBy]
    split
    · rename_i hk
      rw [List.pairwise_cons]
      refine ⟨?_, List.pairwise_cons.mpr hl⟩
      intro z hz
      rcases List.mem_cons.mp hz with rfl | hz
      · exact hk
      · exact le_trans (hl.1 z hz) hk
    · rename_i hk
      rw [List.pairwise_cons]
      refine ⟨?_, ih hl.2⟩
      intro z hz
      rcases List.mem_cons.mp ((insertDescBy_perm key x ys).mem_iff.mp hz) with rfl | hz
      · exact le_of_lt (lt_of_not_le hk)
      · exact hl.1 z hz

lemma sortDescBy_pairwise (l : List α) :
    List.Pairwise (fun a b => key b ≤ key a) (sortDescBy key l) := by
  induction l with
  | nil => simp [sortDescBy]
  | cons x xs ih => exact insertDescBy_pairwise key ih

lemma insertDescBy_filter_level (c : β) (x : α) (l : List α) :
    (insertDescBy key x l).filter (fun z => decide (key z = c)) =
      (x :: l).filter (fun z => decide (key z = c)) := by
  induction l with
  | nil => rfl
  | cons y ys ih =>
    rw [insertDescBy]
    split
    · rfl
    · rename_i hk
      by_cases hx : key x = c
      · have hy : ¬ key y = c := by
          intro hy
          exact hk (le_of_eq (hy.trans hx.symm))
        simp [List.filter_cons, hx, hy, ih]
      · simp [List.filter_cons, hx, ih]

lemma sortDescBy_filter_level (c : β) (l : List α) :
    (sortDescBy key l).filter (fun z => decide (key z = c)) =
      l.filter (fun z => decide (key z = c)) := by
  induction l with
  | nil => rfl
  | cons x xs ih =>
    rw [sortDescBy, insertDescBy_filter_level]
    simp only [List.filter_cons, ih]

lemma insertDescBy_length (x : α) (l : List α) :
    (insertDescBy key x l).length = l.length + 1 :=
  (insertDescBy_perm key x l).length_eq

lemma sortDescBy_length (l : List α) : (sortDescBy key l).length = l.length :=
  (sortDescBy_perm key l).length_eq

end SortLemmas

/-- C5: the ranked list is a permutation of the scored roster, sorted by
descending similarity; ties keep the original roster order, expressed by the
filter-stability equation: restricted to any one similarity value, the ranked
list equals the scored roster list in its original order.  The response list
is the first five entries, so its length is min 5 (roster size). -/
theorem ranked_top5_spec (pv : List ℝ) (pros : List Pro) :
    (topFive pv pros).length = min 5 pros.length ∧
    topFive pv pros = (ranked pv pros).take 5 ∧
    List.Perm (ranked pv pros) (List.map (scoreMatch pv) pros) ∧
    List.Pairwise (fun x y => y.similarity ≤ x.similarity) (ranked pv pros) ∧
    (∀ c : ℝ, (ranked pv pros).filter (fun m => decide (m.similarity = c)) =
      (List.map (scoreMatch pv) pros).filter (fun m => decide (m.similarity = c))) := by
  refine ⟨?_, rfl, sortDescBy_perm _ _, sortDescBy_pairwise _ _,
    fun c => sortDescBy_filter_level _ c _⟩
  rw [topFive, List.length_take, ranked, sortDescBy_length, List.length_map]

end SoccerBackend
